import Mathlib

/-!
Shallow embedding of the Instagram-parcer frontend's polling/retry
orchestration and progressive-disclosure store.

The repository has three React components:
* `src/unnamed/part_000` — App variant with `loadImagesWithRetry`,
  `checkScrapeStatus` (status monitor) and `handleSubmit` wiring;
* `src/unnamed/part_001` — App variant with `loadImagesWithRetry`,
  `loadOCRResultsWithRetry`, `extractProfileInfo`, `extractCaptions`,
  `filterCaptions`, `getPaginatedCaptions`;
* `src/mythic_frontend/src/App.tsx` — App variant with `loadPostComments`
  (per-shortcode comment state) and its own `extractProfileInfo`.

JavaScript-specific behaviour (truthiness of `''`/`0`/`false`/`undefined`,
`padStart`, `trim`, `toLowerCase`, `includes`, `Math.ceil` of a float
division) is modelled by the explicit `js...` helpers below.  Recursive
`setTimeout` retry chains are modelled two ways: a flattened run function
that executes the whole timer chain sequentially (faithful because each
continuation is scheduled only after the previous attempt's outcome is
known, per the single-threaded cooperative model), and — for claims about
a single stale continuation — a one-step firing function over an explicit
state with a pending-timer list.
-/

/-- JavaScript `a || b` for an optional string `a`: `undefined` and the
empty string are falsy. -/
def jsOrS (a : Option String) (b : String) : String :=
  match a with
  | some s => if s = "" then b else s
  | none => b

/-- JavaScript `a || b` for an optional number `a`: `undefined` and `0`
are falsy. -/
def jsOrN (a : Option Nat) (b : Nat) : Nat :=
  match a with
  | some n => if n = 0 then b else n
  | none => b

/-- JavaScript `a || b` for an optional boolean `a`: `undefined` and
`false` are falsy. -/
def jsOrB (a : Option Bool) (b : Bool) : Bool :=
  match a with
  | some x => if x then x else b
  | none => b

/-- JavaScript truthiness of an optional string (`if (data.runId)`). -/
def jsTruthyS : Option String → Bool
  | some s => !(s == "")
  | none => false

/-- JavaScript `String.prototype.trim`, modelled over the character list. -/
def jsTrim (s : String) : String :=
  String.mk (((s.data.dropWhile Char.isWhitespace).reverse.dropWhile
    Char.isWhitespace).reverse)

/-- JavaScript `String.prototype.toLowerCase`, modelled characterwise. -/
def jsToLower (s : String) : String := String.mk (s.data.map Char.toLower)

/-- Does `pat` occur as a prefix of `l`? (helper for substring search). -/
def isPrefixOfCL : List Char → List Char → Bool
  | [], _ => true
  | _ :: _, [] => false
  | a :: as, b :: bs => a == b && isPrefixOfCL as bs

/-- Does `pat` occur as a contiguous infix of `l`? -/
def isInfixOfCL (pat : List Char) : List Char → Bool
  | [] => isPrefixOfCL pat []
  | c :: rest => isPrefixOfCL pat (c :: rest) || isInfixOfCL pat rest

/-- JavaScript `s.includes(pat)`: substring containment. -/
def strIncludes (s pat : String) : Bool := isInfixOfCL pat.data s.data

/-- JavaScript `s.padStart(3, '0')`. -/
def padStart3 (s : String) : String :=
  String.mk (List.replicate (3 - s.length) '0') ++ s

/-- `Math.ceil(a / b)` for natural `a` and positive natural `b`. -/
def ceilDiv (a b : Nat) : Nat := (a + b - 1) / b

/-! ## BackoffSchedule

The linear per-phase backoff used by the pollers: `delay = attempt * base`
(`attempt * 5000` in `loadImagesWithRetry`, `attempt * 10000` in
`loadOCRResultsWithRetry`, fixed `10000` in `checkScrapeStatus`). -/

/-- Linear backoff variant: `delay(n) = n * base`. -/
def linearDelay (base n : Nat) : Nat := n * base

/-- Image-phase backoff: `const delay = attempt * 5000`. -/
def imageRetryDelay (attempt : Nat) : Nat := attempt * 5000

/-- OCR-phase backoff: `const delay = attempt * 10000`. -/
def ocrRetryDelay (attempt : Nat) : Nat := attempt * 10000

/-- Status-monitor fixed interval: `const delay = 10000`. -/
def statusCheckDelay : Nat := 10000

/-- Backend response to one `get-images` fetch: a well-formed payload
(`data.images`, `data.total_images`), a non-2xx response, or a thrown
network error. -/
inductive ImagesResp
  | ok (images : Option (List String)) (total_images : Nat)
  | httpError
  | exception

namespace P001

/-! ### part_001: posts payload and caption extraction -/

/-- The fields of one element of `data` that `part_001` reads
(posts mode: profile fields are duplicated into each post). -/
structure Post where
  caption : Option String
  timestamp : Option String
  likesCount : Option Nat
  commentsCount : Option Nat
  shortCode : Option String
  url : Option String
  ownerUsername : Option String
  ownerFullName : Option String
  ownerIsVerified : Option Bool
  ownerProfilePicUrl : Option String

/-- `post.url?.split('/p/')[1]?.split('/')[0]` — best-effort shortcode
extraction from the post URL. -/
def urlShortCode (url : Option String) : Option String :=
  match url with
  | none => none
  | some u => ((u.splitOn "/p/").get? 1).map (fun t => (t.splitOn "/").headD "")

/-- One entry of `details` inside an OCR result. -/
structure OCRDetail where
  text : String
  confidence : Rat

/-- One OCR result, keyed by filename in the backend payload. -/
structure OCRResult where
  text : String
  confidence : Rat
  details : List OCRDetail
  has_text : Bool

/-- The `ocr_results` object: filename-keyed map, modelled as an
association list. -/
abbrev OcrMap := List (String × OCRResult)

/-- The profile record produced by `extractProfileInfo`.  The source field
`private` is called `isPrivate` here because `private` is a Lean keyword. -/
structure ProfileInfo where
  username : String
  fullName : String
  biography : String
  followersCount : Nat
  followsCount : Nat
  postsCount : Nat
  verified : Bool
  isPrivate : Bool
  profilePicUrl : String
deriving DecidableEq

/-- One caption record produced by `extractCaptions`. -/
structure PostCaption where
  text : String
  timestamp : String
  likesCount : Nat
  commentsCount : Nat
  shortCode : String
  ocrText : String
deriving DecidableEq

/-- Result of running one whole `loadImagesWithRetry` timer chain:
the final component state (`images`, `imagesLoading`), the scheduled
inter-call delays, the number of fetch calls issued, and whether the
chain ended in the success branch. -/
structure ImagesRun where
  images : List String
  imagesLoading : Bool
  delays : List Nat
  calls : Nat
  succeeded : Bool
deriving DecidableEq

/-- Flattened execution of `loadImagesWithRetry` (part_001 lines 143-182):
each attempt fetches `get-images`; on `total_images > 0` it stores
`data.images || []` and stops; otherwise (`0` total, non-2xx, or a thrown
error) it schedules attempt+1 after `attempt * 5000` ms while
`attempt < maxAttempts`, and stops silently once attempts are exhausted.
`images0` is the `images` state the chain started from. -/
def loadImagesWithRetry (fetch : Nat → ImagesResp) (maxAttempts attempt : Nat)
    (images0 : List String) : ImagesRun :=
  match fetch attempt with
  | .ok imgs total =>
    if 0 < total then
      { images := imgs.getD [], imagesLoading := false, delays := [],
        calls := 1, succeeded := true }
    else if h : attempt < maxAttempts then
      let r := loadImagesWithRetry fetch maxAttempts (attempt + 1) images0
      { r with delays := imageRetryDelay attempt :: r.delays, calls := r.calls + 1 }
    else
      { images := images0, imagesLoading := false, delays := [],
        calls := 1, succeeded := false }
  | .httpError =>
    if h : attempt < maxAttempts then
      let r := loadImagesWithRetry fetch maxAttempts (attempt + 1) images0
      { r with delays := imageRetryDelay attempt :: r.delays, calls := r.calls + 1 }
    else
      { images := images0, imagesLoading := false, delays := [],
        calls := 1, succeeded := false }
  | .exception =>
    if h : attempt < maxAttempts then
      let r := loadImagesWithRetry fetch maxAttempts (attempt + 1) images0
      { r with delays := imageRetryDelay attempt :: r.delays, calls := r.calls + 1 }
    else
      { images := images0, imagesLoading := false, delays := [],
        calls := 1, succeeded := false }
termination_by maxAttempts - attempt
decreasing_by all_goals omega

/-- Backend response to one `get-ocr-results` fetch. -/
inductive OcrResp
  | ok (ocr_results : Option OcrMap)
  | httpError
  | exception

/-- Is the response the 2xx success case? -/
def OcrResp.isOk : OcrResp → Bool
  | .ok _ => true
  | _ => false

/-- Result of running one whole `loadOCRResultsWithRetry` timer chain. -/
structure OcrRun where
  ocrData : Option OcrMap
  ocrLoading : Bool
  ocrAttempt : Nat
  error : Option String
  loadImagesCalled : Bool
  delays : List Nat
  calls : Nat
  succeeded : Bool

/-- Flattened execution of `loadOCRResultsWithRetry` (part_001 lines
185-223): any 2xx response counts as success (stores `data.ocr_results`
and also triggers `loadImages`); a non-2xx response or thrown error
schedules attempt+1 after `attempt * 10000` ms while
`attempt < maxAttempts`, and stops silently (no `setError` call anywhere
in the function) once attempts are exhausted.  `ocrData0` and `error0`
are the `ocrData` and `error` states the chain started from. -/
def loadOCRResultsWithRetry (fetch : Nat → OcrResp) (maxAttempts attempt : Nat)
    (ocrData0 : Option OcrMap) (error0 : Option String) : OcrRun :=
  match fetch attempt with
  | .ok res =>
    { ocrData := res, ocrLoading := false, ocrAttempt := 0, error := error0,
      loadImagesCalled := true, delays := [], calls := 1, succeeded := true }
  | .httpError =>
    if h : attempt < maxAttempts then
      let r := loadOCRResultsWithRetry fetch maxAttempts (attempt + 1) ocrData0 error0
      { r with delays := ocrRetryDelay attempt :: r.delays, calls := r.calls + 1 }
    else
      { ocrData := ocrData0, ocrLoading := false, ocrAttempt := 0, error := error0,
        loadImagesCalled := false, delays := [], calls := 1, succeeded := false }
  | .exception =>
    if h : attempt < maxAttempts then
      let r := loadOCRResultsWithRetry fetch maxAttempts (attempt + 1) ocrData0 error0
      { r with delays := ocrRetryDelay attempt :: r.delays, calls := r.calls + 1 }
    else
      { ocrData := ocrData0, ocrLoading := false, ocrAttempt := 0, error := error0,
        loadImagesCalled := false, delays := [], calls := 1, succeeded := false }
termination_by maxAttempts - attempt
decreasing_by all_goals omega

/-- `extractProfileInfo` (part_001 lines 249-265): profile taken from the
first post; fields the posts payload does not carry (`biography`, the
three counts, `private`) are the constants `''`/`0`/`false`. -/
def extractProfileInfo (data : Option (List Post)) : Option ProfileInfo :=
  match data with
  | none => none
  | some [] => none
  | some (postData :: _) =>
    some { username := jsOrS postData.ownerUsername ""
           fullName := jsOrS postData.ownerFullName ""
           biography := ""
           followersCount := 0
           followsCount := 0
           postsCount := 0
           verified := jsOrB postData.ownerIsVerified false
           isPrivate := false
           profilePicUrl := jsOrS postData.ownerProfilePicUrl "" }

/-- Claim-side definition for C7 (follows the spec's words): profile
fields are taken from `posts[0]` (the head of the list), absent or falsy
fields default to the empty string / zero / false, and a null or empty
posts list produces no profile.  In the posts-mode payload the profile
fields present on a post are the `owner*` fields; `biography`, the three
counts and `private` are absent from every post, so they take their
defaults. -/
def mergeProfileSpec (data : Option (List Post)) : Option ProfileInfo :=
  match data with
  | none => none
  | some l =>
    match l.head? with
    | none => none
    | some p =>
      some { username := jsOrS p.ownerUsername ""
             fullName := jsOrS p.ownerFullName ""
             biography := ""
             followersCount := 0
             followsCount := 0
             postsCount := 0
             verified := jsOrB p.ownerIsVerified false
             isPrivate := false
             profilePicUrl := jsOrS p.ownerProfilePicUrl "" }

/-- `String(index + 1).padStart(3, '0')`. -/
def imageIndexName (index : Nat) : String := padStart3 (toString (index + 1))

/-- The fixed ordered candidate filename list for the caption at 0-based
`index`: `[`${imageIndex}.jpg`, `${imageIndex}.jpeg`, `${imageIndex}.png`]`. -/
def possibleFiles (index : Nat) : List String :=
  [imageIndexName index ++ ".jpg", imageIndexName index ++ ".jpeg",
   imageIndexName index ++ ".png"]

/-- The `for (const filename of possibleFiles)` loop of `extractCaptions`:
the first candidate filename whose OCR entry exists *and* has
`has_text` set wins; otherwise the OCR text stays `''`. -/
def findOCRText (od : OcrMap) : List String → String
  | [] => ""
  | filename :: rest =>
    match od.lookup filename with
    | some r => if r.has_text then r.text else findOCRText od rest
    | none => findOCRText od rest

/-- Claim-side definition for C5 exactly as the claim states it: the
filename is tried against the ordered extension list and the first
*matching OCR entry* (an entry present under that filename) wins;
if no filename matches, the result is the empty string. -/
def specPositionalOCRText (od : OcrMap) : List String → String
  | [] => ""
  | f :: rest =>
    match od.lookup f with
    | some r => r.text
    | none => specPositionalOCRText od rest

/-- Claim-side definition for the amended C5: the first candidate
filename whose entry is present *and* whose `has_text` flag is true
wins; absence of such an entry leaves the OCR text empty. -/
def specPositionalOCRTextHT (od : OcrMap) : List String → String
  | [] => ""
  | f :: rest =>
    match od.lookup f with
    | some r => if r.has_text then r.text else specPositionalOCRTextHT od rest
    | none => specPositionalOCRTextHT od rest

/-- The record built for the post at 0-based `index` by `extractCaptions`
(part_001 lines 268-296). -/
def mkCaption (ocrData : Option OcrMap) (index : Nat) (post : Post) : PostCaption :=
  let ocrText :=
    match ocrData with
    | none => ""
    | some od => findOCRText od (possibleFiles index)
  { text := jsOrS post.caption ""
    timestamp := jsOrS post.timestamp ""
    likesCount := jsOrN post.likesCount 0
    commentsCount := jsOrN post.commentsCount 0
    shortCode := jsOrS post.shortCode (jsOrS (urlShortCode post.url) "")
    ocrText := ocrText }

/-- `data.map((post, index) => ...)` with the running index made explicit. -/
def extractCaptionsAux (ocrData : Option OcrMap) (index : Nat) :
    List Post → List PostCaption
  | [] => []
  | post :: rest => mkCaption ocrData index post :: extractCaptionsAux ocrData (index + 1) rest

/-- `extractCaptions` (part_001 lines 268-296): one caption record per
post, OCR text attached positionally. -/
def extractCaptions (ocrData : Option OcrMap) (data : List Post) : List PostCaption :=
  extractCaptionsAux ocrData 0 data

/-- `filterCaptions` (part_001 lines 299-307): an all-whitespace search
text returns the list unchanged; otherwise case-insensitive substring
match against caption text, shortcode, and (when non-empty) OCR text. -/
def filterCaptions (searchPostsText : String) (captions : List PostCaption) :
    List PostCaption :=
  if jsTrim searchPostsText = "" then captions
  else
    let search := jsToLower searchPostsText
    captions.filter (fun caption =>
      strIncludes (jsToLower caption.text) search
      || strIncludes (jsToLower caption.shortCode) search
      || (!(caption.ocrText == "") && strIncludes (jsToLower caption.ocrText) search))

/-- The record returned by `getPaginatedCaptions`. -/
structure PaginatedCaptions where
  captions : List PostCaption
  totalPages : Nat
deriving DecidableEq

/-- `getPaginatedCaptions` (part_001 lines 310-319): filter, then
`totalPages = Math.ceil(filtered.length / postsPerPage)` and the slice
`[(currentPage-1)*postsPerPage, currentPage*postsPerPage)`. -/
def getPaginatedCaptions (searchPostsText : String) (postsPerPage currentPage : Nat)
    (captions : List PostCaption) : PaginatedCaptions :=
  let filtered := filterCaptions searchPostsText captions
  let totalPages := ceilDiv filtered.length postsPerPage
  let startIndex := (currentPage - 1) * postsPerPage
  { captions := (filtered.drop startIndex).take postsPerPage, totalPages := totalPages }

end P001

namespace P000

/-! ### part_000: status monitor, submission wiring, and the pending-timer
state model used for the cancellation claim -/

/-- A continuation scheduled by `setTimeout(() => loadImagesWithRetry(runId,
attempt + 1, maxAttempts), delay)` in part_000 lines 241-280.  The closure
captures exactly the run identifier, the next attempt number and the
attempt cap — the source attaches no generation counter to it. -/
structure Timer where
  delay : Nat
  runId : String
  attempt : Nat
  maxAttempts : Nat
deriving DecidableEq

/-- The slice of part_000 component state the image-retry chain touches,
plus the list of pending scheduled continuations. -/
structure AppState where
  images : List String
  imagesLoading : Bool
  result : Option String
  pending : List Timer
deriving DecidableEq

/-- One firing of a pending `loadImagesWithRetry` continuation (part_000
lines 241-280): set `imagesLoading`, fetch `get-images` for the timer's
own `runId`, then either store `data.images || []` (success), schedule
the next attempt, or stop.  The timer itself has already been removed
from `pending` by the scheduler when it fires. -/
def fireImagesRetry (getImages : String → Nat → ImagesResp) (t : Timer)
    (st : AppState) : AppState :=
  let st1 := { st with imagesLoading := true }
  match getImages t.runId t.attempt with
  | .ok imgs total =>
    if 0 < total then { st1 with images := imgs.getD [], imagesLoading := false }
    else if t.attempt < t.maxAttempts then
      { st1 with pending := st1.pending ++
          [⟨imageRetryDelay t.attempt, t.runId, t.attempt + 1, t.maxAttempts⟩] }
    else { st1 with imagesLoading := false }
  | .httpError =>
    if t.attempt < t.maxAttempts then
      { st1 with pending := st1.pending ++
          [⟨imageRetryDelay t.attempt, t.runId, t.attempt + 1, t.maxAttempts⟩] }
    else { st1 with imagesLoading := false }
  | .exception =>
    if t.attempt < t.maxAttempts then
      { st1 with pending := st1.pending ++
          [⟨imageRetryDelay t.attempt, t.runId, t.attempt + 1, t.maxAttempts⟩] }
    else { st1 with imagesLoading := false }

/-- Backend response to one `scrape-status` fetch: the fields part_000
reads are `statusData.status` and `statusData.details.images_count`. -/
inductive StatusResp
  | ok (status : String) (images_count : Nat)
  | httpError
  | exception

/-- Result of running one whole `checkScrapeStatus` timer chain: the last
stored `scrapeStatus` (status string and image count), whether the
monitor triggered `loadImages`, the number of status calls issued, and
the scheduled delays. -/
structure StatusRun where
  scrapeStatus : Option (String × Nat)
  loadImagesCalled : Bool
  calls : Nat
  delays : List Nat
deriving DecidableEq

/-- Flattened execution of `checkScrapeStatus` (part_000 lines 173-216):
on a 2xx response the status is stored; `completed` stops and triggers
`loadImages` when `images_count > 0`; `error` stops with no retry; any
other status — and any non-2xx response or thrown error — retries after
a fixed 10000 ms while `attempt < maxAttempts`, else stops silently. -/
def checkScrapeStatus (getStatus : Nat → StatusResp) (maxAttempts attempt : Nat)
    (scrapeStatus0 : Option (String × Nat)) : StatusRun :=
  match getStatus attempt with
  | .ok s cnt =>
    if s = "completed" then
      { scrapeStatus := some (s, cnt), loadImagesCalled := decide (0 < cnt),
        calls := 1, delays := [] }
    else if s = "error" then
      { scrapeStatus := some (s, cnt), loadImagesCalled := false,
        calls := 1, delays := [] }
    else if h : attempt < maxAttempts then
      let r := checkScrapeStatus getStatus maxAttempts (attempt + 1) (some (s, cnt))
      { r with calls := r.calls + 1, delays := statusCheckDelay :: r.delays }
    else
      { scrapeStatus := some (s, cnt), loadImagesCalled := false,
        calls := 1, delays := [] }
  | .httpError =>
    if h : attempt < maxAttempts then
      let r := checkScrapeStatus getStatus maxAttempts (attempt + 1) scrapeStatus0
      { r with calls := r.calls + 1, delays := statusCheckDelay :: r.delays }
    else
      { scrapeStatus := scrapeStatus0, loadImagesCalled := false,
        calls := 1, delays := [] }
  | .exception =>
    if h : attempt < maxAttempts then
      let r := checkScrapeStatus getStatus maxAttempts (attempt + 1) scrapeStatus0
      { r with calls := r.calls + 1, delays := statusCheckDelay :: r.delays }
    else
      { scrapeStatus := scrapeStatus0, loadImagesCalled := false,
        calls := 1, delays := [] }
termination_by maxAttempts - attempt
decreasing_by all_goals omega

/-- What the success path of `handleSubmit` (part_000 lines 153-162)
starts once the submission response arrives with a truthy `data.runId`:
`loadImagesWithRetry(data.runId)` *and* `checkScrapeStatus(data.runId)`,
both unconditionally. -/
structure SubmitWiring where
  imagesPollerStarted : Bool
  statusMonitorStarted : Bool
deriving DecidableEq

/-- The `if (data.runId) { loadImagesWithRetry(data.runId);
checkScrapeStatus(data.runId) }` wiring of `handleSubmit`. -/
def handleSubmitOnData (runId : Option String) : SubmitWiring :=
  if jsTruthyS runId then ⟨true, true⟩ else ⟨false, false⟩

end P000

namespace AppTsx

/-! ### App.tsx: profile extraction from a profile-shaped payload and
per-shortcode comment state -/

/-- The fields of `data[0]` that App.tsx's `extractProfileInfo` reads
(profile-shaped payload).  The source field `private` is `isPrivate`
here because `private` is a Lean keyword. -/
structure ProfileData where
  username : Option String
  fullName : Option String
  biography : Option String
  followersCount : Option Nat
  followsCount : Option Nat
  postsCount : Option Nat
  verified : Option Bool
  isPrivate : Option Bool
  profilePicUrl : Option String

/-- `extractProfileInfo` (App.tsx lines 146-160): every profile field
taken from `data[0]` with `|| ''` / `|| 0` / `|| false` defaults. -/
def extractProfileInfo (data : Option (List ProfileData)) : Option P001.ProfileInfo :=
  match data with
  | none => none
  | some [] => none
  | some (profileData :: _) =>
    some { username := jsOrS profileData.username ""
           fullName := jsOrS profileData.fullName ""
           biography := jsOrS profileData.biography ""
           followersCount := jsOrN profileData.followersCount 0
           followsCount := jsOrN profileData.followsCount 0
           postsCount := jsOrN profileData.postsCount 0
           verified := jsOrB profileData.verified false
           isPrivate := jsOrB profileData.isPrivate false
           profilePicUrl := jsOrS profileData.profilePicUrl "" }

/-- Claim-side definition for C7 (follows the spec's words) over the
profile-shaped payload: fields from the head of the posts list with
absent/falsy defaults; null or empty list yields no profile. -/
def mergeProfileSpec (data : Option (List ProfileData)) : Option P001.ProfileInfo :=
  match data with
  | none => none
  | some l =>
    match l.head? with
    | none => none
    | some p =>
      some { username := jsOrS p.username ""
             fullName := jsOrS p.fullName ""
             biography := jsOrS p.biography ""
             followersCount := jsOrN p.followersCount 0
             followsCount := jsOrN p.followsCount 0
             postsCount := jsOrN p.postsCount 0
             verified := jsOrB p.verified false
             isPrivate := jsOrB p.isPrivate false
             profilePicUrl := jsOrS p.profilePicUrl "" }

/-- One entry of the `postComments` map: `{loading, comments, error}`.
The comment payload element type is abstract (`any[]` in the source). -/
structure CommentEntry (α : Type) where
  loading : Bool
  comments : List α
  error : Option String

/-- Backend response to one `scrape-comments` fetch: a 2xx payload
(whose `comments` field may be absent), a non-2xx status code (the code
throws `` new Error(`Ошибка ${response.status}`) ``), or a thrown network
error with its message. -/
inductive CommentsResp (α : Type)
  | ok (comments : Option (List α))
  | httpError (status : Nat)
  | exception (message : String)

/-- The functional state update `prev => ({ ...prev, [shortCode]: entry })`
used by every write in `loadPostComments`. -/
def setPostComment {α : Type} (prev : String → Option (CommentEntry α))
    (shortCode : String) (entry : CommentEntry α) :
    String → Option (CommentEntry α) :=
  fun k => if k = shortCode then some entry else prev k

/-- `loadPostComments` (App.tsx lines 103-143): the loading-start write,
then — depending on the fetch outcome — the success or failure write.
Returns the map after the first write and the final map. -/
def loadPostComments {α : Type} (resp : CommentsResp α) (shortCode : String)
    (prev : String → Option (CommentEntry α)) :
    (String → Option (CommentEntry α)) × (String → Option (CommentEntry α)) :=
  let m1 := setPostComment prev shortCode ⟨true, [], none⟩
  match resp with
  | .ok comments =>
    (m1, setPostComment m1 shortCode ⟨false, comments.getD [], none⟩)
  | .httpError status =>
    (m1, setPostComment m1 shortCode ⟨false, [], some ("Ошибка " ++ toString status)⟩)
  | .exception message =>
    (m1, setPostComment m1 shortCode
      ⟨false, [], some (jsOrS (some message) "Ошибка загрузки комментариев")⟩)

end AppTsx

/-! ## Concrete scenario inputs -/

/-- The twelve image filenames returned on the C2 scenario's attempt 4. -/
def c2Images : List String :=
  ["001.jpg", "002.jpg", "003.jpg", "004.jpg", "005.jpg", "006.jpg",
   "007.jpg", "008.jpg", "009.jpg", "010.jpg", "011.jpg", "012.jpg"]

/-- C2 scenario oracle: `total_images = 0` on attempts 1-3 and `12`
(with the twelve filenames of `c2Images`) on attempt 4. -/
def c2Fetch : Nat → ImagesResp := fun attempt =>
  if attempt ≤ 3 then ImagesResp.ok (some []) 0
  else ImagesResp.ok (some c2Images) 12

/-- C1 failing input, backend side: run `r1`'s images are ready (2 files)
while any other run still has none. -/
def c1GetImages : String → Nat → ImagesResp := fun runId _ =>
  if runId = "r1" then ImagesResp.ok (some ["old_001.jpg", "old_002.jpg"]) 2
  else ImagesResp.ok (some []) 0

/-- C1 failing input: the retry continuation scheduled during run `r1`
(next attempt 3 of 8) that is still pending when run `r2` is submitted. -/
def c1StaleTimer : P000.Timer := ⟨10000, "r1", 3, 8⟩

/-- C1 failing input: component state after the new run `r2` has been
submitted and stored its own image list. -/
def c1State : P000.AppState :=
  { images := ["new_001.jpg"], imagesLoading := true,
    result := some "r2", pending := [] }

/-- C4 scenario oracle: the very first status poll reports `error`. -/
def c4Oracle : Nat → P000.StatusResp := fun _ => P000.StatusResp.ok "error" 0

/-- C5 counterexample input: a post with no fields set. -/
def c5Post : P001.Post := ⟨none, none, none, none, none, none, none, none, none, none⟩

/-- C5 counterexample input: the OCR entry for `001.jpg` exists but its
`has_text` flag is false while its `text` is non-empty. -/
def c5Ocr : P001.OcrMap := [("001.jpg", ⟨"night city", 0, [], false⟩)]

/-- C5 witness input: an OCR map whose first match for caption 1 is the
`001.jpeg` entry with `has_text` set. -/
def w5Ocr : P001.OcrMap := [("001.jpeg", ⟨"sunset", 0, [], true⟩)]

/-- The caption record `extractCaptions` produces for `c5Post` under
`w5Ocr`. -/
def w5Caption : P001.PostCaption := ⟨"", "", 0, 0, "", "sunset"⟩

/-- A sample caption record for the pagination scenario. -/
def sampleCaption : P001.PostCaption := ⟨"post text", "", 0, 0, "sc", ""⟩

/-! ## Helper lemmas -/

theorem ceilDiv_le_iff (a b m : Nat) (hb : 0 < b) : ceilDiv a b ≤ m ↔ a ≤ m * b := by
  unfold ceilDiv
  rw [Nat.div_le_iff_le_mul_add_pred hb, Nat.mul_comm m b]
  generalize b * m = q
  omega

theorem findOCRText_eq_specHT (od : P001.OcrMap) :
    ∀ fs, P001.findOCRText od fs = P001.specPositionalOCRTextHT od fs := by
  intro fs
  induction fs with
  | nil => rfl
  | cons f rest ih =>
    cases h : od.lookup f with
    | none => simp [P001.findOCRText, P001.specPositionalOCRTextHT, h, ih]
    | some r => simp [P001.findOCRText, P001.specPositionalOCRTextHT, h, ih]

theorem extractCaptionsAux_ocrText (od : P001.OcrMap) :
    ∀ (posts : List P001.Post) (index i : Nat) (c : P001.PostCaption),
      (P001.extractCaptionsAux (some od) index posts)[i]? = some c →
      c.ocrText = P001.findOCRText od (P001.possibleFiles (index + i)) := by
  intro posts
  induction posts with
  | nil => intro index i c h; simp [P001.extractCaptionsAux] at h
  | cons p ps ih =>
    intro index i c h
    cases i with
    | zero =>
      simp [P001.extractCaptionsAux] at h
      subst h
      simp [P001.mkCaption]
    | succ i =>
      simp only [P001.extractCaptionsAux, List.getElem?_cons_succ] at h
      have hres := ih (index + 1) i c h
      rw [show index + (i + 1) = (index + 1) + i from by omega]
      exact hres

theorem loadOCR_never_ok (fetch : Nat → P001.OcrResp)
    (hf : ∀ n, (fetch n).isOk = false)
    (ocrData0 : Option P001.OcrMap) (error0 : Option String) :
    ∀ (k attempt maxAttempts : Nat), maxAttempts = attempt + k →
      P001.loadOCRResultsWithRetry fetch maxAttempts attempt ocrData0 error0 =
        { ocrData := ocrData0, ocrLoading := false, ocrAttempt := 0, error := error0,
          loadImagesCalled := false,
          delays := (List.range' attempt k).map ocrRetryDelay,
          calls := k + 1, succeeded := false } := by
  intro k
  induction k with
  | zero =>
    intro attempt maxA hm
    rw [hm, P001.loadOCRResultsWithRetry.eq_def]
    cases hfa : fetch attempt with
    | ok res =>
      have hok := hf attempt
      rw [hfa] at hok
      simp [P001.OcrResp.isOk] at hok
    | httpError => simp
    | exception => simp
  | succ k ih =>
    intro attempt maxA hm
    rw [hm, P001.loadOCRResultsWithRetry.eq_def]
    cases hfa : fetch attempt with
    | ok res =>
      have hok := hf attempt
      rw [hfa] at hok
      simp [P001.OcrResp.isOk] at hok
    | httpError =>
      have hlt : attempt < attempt + (k + 1) := by omega
      rw [dif_pos hlt, ih (attempt + 1) (attempt + (k + 1)) (by omega)]
      simp [List.range'_succ]
    | exception =>
      have hlt : attempt < attempt + (k + 1) := by omega
      rw [dif_pos hlt, ih (attempt + 1) (attempt + (k + 1)) (by omega)]
      simp [List.range'_succ]

/-! ## Claims -/

/-- Claim C1 (code bug): the spec demands that every scheduled
continuation carry a generation number bound to the active run and that a
stale continuation perform no state write when it fires.  The source
attaches no generation to the `setTimeout` continuations: evaluating the
code at the failing input — a pending retry timer of superseded run `r1`
firing after run `r2` was submitted — shows the stale continuation
fetching `r1`'s images and overwriting the store. -/
theorem claim_C1 :
    (P000.fireImagesRetry c1GetImages c1StaleTimer c1State).images =
      ["old_001.jpg", "old_002.jpg"]
    ∧ c1State.images = ["new_001.jpg"]
    ∧ (P000.fireImagesRetry c1GetImages c1StaleTimer c1State).images ≠ c1State.images
    ∧ c1State.result = some "r2"
    ∧ c1StaleTimer.runId = "r1" := by
  refine ⟨?_, rfl, ?_, rfl, rfl⟩ <;> decide

/-- Claim C2: image phase with `maxAttempts = 8`, base 5000 ms; fetch
returns `totalImages = 0` on attempts 1-3 and `12` on attempt 4: exactly
4 fetch calls, inter-call delays 5000, 10000, 15000 ms, the chain ends in
the success branch (`Succeeded`), and the stored image list has 12
entries. -/
theorem claim_C2 :
    (P001.loadImagesWithRetry c2Fetch 8 1 []).calls = 4
    ∧ (P001.loadImagesWithRetry c2Fetch 8 1 []).delays = [5000, 10000, 15000]
    ∧ (P001.loadImagesWithRetry c2Fetch 8 1 []).succeeded = true
    ∧ (P001.loadImagesWithRetry c2Fetch 8 1 []).imagesLoading = false
    ∧ (P001.loadImagesWithRetry c2Fetch 8 1 []).images = c2Images
    ∧ c2Images.length = 12 := by
  have h : P001.loadImagesWithRetry c2Fetch 8 1 [] =
      { images := c2Images, imagesLoading := false, delays := [5000, 10000, 15000],
        calls := 4, succeeded := true } := by
    simp [P001.loadImagesWithRetry, c2Fetch, imageRetryDelay]
  refine ⟨by rw [h], by rw [h], by rw [h], by rw [h], by rw [h], by decide⟩

/-- Claim C3: OCR phase with `maxAttempts = 6`, base 10000 ms; if no
attempt gets a 2xx response, the chain issues exactly 6 fetch calls with
inter-call delays 10000…50000 ms, ends exhausted (not succeeded), never
triggers `loadImages`, leaves `ocrData` unchanged (so an initially absent
OCR section stays absent from the snapshot) and touches no error state. -/
theorem claim_C3 (fetch : Nat → P001.OcrResp) (ocrData0 : Option P001.OcrMap)
    (error0 : Option String) (hf : ∀ n, (fetch n).isOk = false) :
    (P001.loadOCRResultsWithRetry fetch 6 1 ocrData0 error0).calls = 6
    ∧ (P001.loadOCRResultsWithRetry fetch 6 1 ocrData0 error0).delays =
        [10000, 20000, 30000, 40000, 50000]
    ∧ (P001.loadOCRResultsWithRetry fetch 6 1 ocrData0 error0).succeeded = false
    ∧ (P001.loadOCRResultsWithRetry fetch 6 1 ocrData0 error0).ocrData = ocrData0
    ∧ (P001.loadOCRResultsWithRetry fetch 6 1 ocrData0 error0).ocrLoading = false
    ∧ (P001.loadOCRResultsWithRetry fetch 6 1 ocrData0 error0).error = error0
    ∧ (P001.loadOCRResultsWithRetry fetch 6 1 ocrData0 error0).loadImagesCalled = false := by
  have h := loadOCR_never_ok fetch hf ocrData0 error0 5 1 6 (by omega)
  refine ⟨by rw [h], by rw [h]; rfl, by rw [h], by rw [h], by rw [h], by rw [h], by rw [h]⟩

theorem claim_C3_witness :
    (P001.loadOCRResultsWithRetry (fun _ => P001.OcrResp.httpError) 6 1 none none).calls = 6
    ∧ (P001.loadOCRResultsWithRetry (fun _ => P001.OcrResp.httpError) 6 1 none none).ocrData
        = none :=
  ⟨(claim_C3 (fun _ => P001.OcrResp.httpError) none none (fun _ => rfl)).1,
   (claim_C3 (fun _ => P001.OcrResp.httpError) none none (fun _ => rfl)).2.2.2.1⟩

/-- Claim C4, counterexample: with the first status poll reporting
`error`, the monitor does stop after exactly one call without triggering
its image load — but the image PhasePoller (`loadImagesWithRetry`) is
started unconditionally by `handleSubmit` as soon as the submission
response carries a `runId`, before any status poll; so "the image
PhasePoller is never started" is false (its flag is `true`, not
`false`). -/
theorem claim_C4_counterexample :
    (P000.checkScrapeStatus c4Oracle 20 1 none).calls = 1
    ∧ (P000.checkScrapeStatus c4Oracle 20 1 none).delays = []
    ∧ (P000.checkScrapeStatus c4Oracle 20 1 none).loadImagesCalled = false
    ∧ (P000.handleSubmitOnData (some "run-2")).imagesPollerStarted = true
    ∧ ¬(P000.handleSubmitOnData (some "run-2")).imagesPollerStarted = false := by
  have h : P000.checkScrapeStatus c4Oracle 20 1 none =
      { scrapeStatus := some ("error", 0), loadImagesCalled := false,
        calls := 1, delays := [] } := by
    rw [P000.checkScrapeStatus.eq_def]
    simp [c4Oracle]
  refine ⟨by rw [h], by rw [h], by rw [h], by decide, by decide⟩

/-- Claim C4 (amended): when the first status poll returns
`status = "error"`, the monitor stops after exactly 1 status call — no
retry is scheduled and the monitor never itself triggers an image load —
and it stores the reported error status; the image PhasePoller, however,
is started unconditionally by `handleSubmit` at submission time (for any
truthy `runId`), independent of the status outcome. -/
theorem claim_C4 (getStatus : Nat → P000.StatusResp) (cnt maxAttempts : Nat)
    (scrapeStatus0 : Option (String × Nat))
    (h1 : getStatus 1 = P000.StatusResp.ok "error" cnt) :
    (P000.checkScrapeStatus getStatus maxAttempts 1 scrapeStatus0).calls = 1
    ∧ (P000.checkScrapeStatus getStatus maxAttempts 1 scrapeStatus0).delays = []
    ∧ (P000.checkScrapeStatus getStatus maxAttempts 1 scrapeStatus0).loadImagesCalled = false
    ∧ (P000.checkScrapeStatus getStatus maxAttempts 1 scrapeStatus0).scrapeStatus =
        some ("error", cnt)
    ∧ (∀ runId : String, runId ≠ "" →
        P000.handleSubmitOnData (some runId) = ⟨true, true⟩) := by
  have h : P000.checkScrapeStatus getStatus maxAttempts 1 scrapeStatus0 =
      { scrapeStatus := some ("error", cnt), loadImagesCalled := false,
        calls := 1, delays := [] } := by
    rw [P000.checkScrapeStatus.eq_def]
    simp [h1]
  refine ⟨by rw [h], by rw [h], by rw [h], by rw [h], ?_⟩
  intro runId hr
  have hb : (runId == "") = false := by
    exact beq_eq_false_iff_ne.mpr hr
  simp [P000.handleSubmitOnData, jsTruthyS, hb]

theorem claim_C4_witness :
    (P000.checkScrapeStatus c4Oracle 20 1 none).scrapeStatus = some ("error", 0)
    ∧ P000.handleSubmitOnData (some "run-1") = ⟨true, true⟩ :=
  ⟨(claim_C4 c4Oracle 0 20 none rfl).2.2.2.1,
   (claim_C4 c4Oracle 0 20 none rfl).2.2.2.2 "run-1" (by decide)⟩

/-- Claim C5, counterexample: for the caption at 1-based index 1 the
candidate filename `001.jpg` has a matching OCR entry (text
`"night city"`), so under the claim's rule — first entry present under a
candidate filename wins — the caption's OCR text would be `"night city"`;
the code additionally requires the entry's `has_text` flag, which is
false here, and produces the empty string instead. -/
theorem claim_C5_counterexample :
    (P001.extractCaptions (some c5Ocr) [c5Post]).map (fun c => c.ocrText) = [""]
    ∧ P001.specPositionalOCRText c5Ocr (P001.possibleFiles 0) = "night city"
    ∧ (P001.extractCaptions (some c5Ocr) [c5Post]).map (fun c => c.ocrText) ≠
        [P001.specPositionalOCRText c5Ocr (P001.possibleFiles 0)] := by
  refine ⟨?_, ?_, ?_⟩ <;> decide

/-- Claim C5 (amended): OCR text is attached positionally — for the
caption at 1-based index i the filename is i zero-padded to 3 digits
tried against `.jpg`, `.jpeg`, `.png` in that order; the first candidate
whose OCR entry exists *and has `hasText` set* wins, and if no such entry
exists the caption's OCR text is the empty string. -/
theorem claim_C5 (od : P001.OcrMap) (posts : List P001.Post) (i : Nat)
    (c : P001.PostCaption)
    (h : (P001.extractCaptions (some od) posts)[i]? = some c) :
    c.ocrText = P001.specPositionalOCRTextHT od (P001.possibleFiles i) := by
  have hres := extractCaptionsAux_ocrText od posts 0 i c h
  rw [findOCRText_eq_specHT] at hres
  simpa using hres

theorem claim_C5_witness :
    (P001.extractCaptions (some w5Ocr) [c5Post])[0]? = some w5Caption
    ∧ w5Caption.ocrText = P001.specPositionalOCRTextHT w5Ocr (P001.possibleFiles 0) :=
  ⟨by decide, claim_C5 w5Ocr [c5Post] 0 w5Caption (by decide)⟩

/-- Claim C6: the per-phase backoff is `delay(n) = n * base` (bases 5000
and 10000 ms), non-negative, strictly increasing from attempt 1 on, and
the image-phase base is smaller than the OCR-phase base. -/
theorem claim_C6 :
    (∀ n, imageRetryDelay n = linearDelay 5000 n ∧ ocrRetryDelay n = linearDelay 10000 n)
    ∧ (∀ m n, 1 ≤ m → m < n →
        imageRetryDelay m < imageRetryDelay n ∧ ocrRetryDelay m < ocrRetryDelay n)
    ∧ (∀ n, 0 ≤ imageRetryDelay n ∧ 0 ≤ ocrRetryDelay n)
    ∧ imageRetryDelay 1 < ocrRetryDelay 1 := by
  refine ⟨fun n => ⟨rfl, rfl⟩, fun m n h1 h2 => ⟨?_, ?_⟩,
    fun n => ⟨Nat.zero_le _, Nat.zero_le _⟩, by decide⟩
  · simp only [imageRetryDelay]
    omega
  · simp only [ocrRetryDelay]
    omega

theorem claim_C6_witness :
    imageRetryDelay 2 < imageRetryDelay 5 ∧ ocrRetryDelay 2 < ocrRetryDelay 5 :=
  claim_C6.2.1 2 5 (by decide) (by decide)

/-- Claim C7: both `extractProfileInfo` implementations take every
profile field from the first element of the posts list, defaulting every
absent or falsy field to `''` / `0` / `false`, and produce no profile
(null) for a null or empty list — stated as equality with the claim-side
`mergeProfileSpec` definitions. -/
theorem claim_C7 :
    (∀ data, P001.extractProfileInfo data = P001.mergeProfileSpec data)
    ∧ (∀ data, AppTsx.extractProfileInfo data = AppTsx.mergeProfileSpec data) := by
  constructor
  · intro d
    cases d with
    | none => rfl
    | some l =>
      cases l with
      | nil => rfl
      | cons p ps => rfl
  · intro d
    cases d with
    | none => rfl
    | some l =>
      cases l with
      | nil => rfl
      | cons p ps => rfl

/-- Claim C8: each of the three state writes of `loadPostComments` for
shortcode `s` (loading start; success; failure — the fetch outcome
selects which of the latter two happens) leaves the entry of every other
key unchanged. -/
theorem claim_C8 (α : Type) (resp : AppTsx.CommentsResp α) (shortCode k : String)
    (prev : String → Option (AppTsx.CommentEntry α)) (h : k ≠ shortCode) :
    (AppTsx.loadPostComments resp shortCode prev).1 k = prev k
    ∧ (AppTsx.loadPostComments resp shortCode prev).2 k = prev k := by
  cases resp <;> simp [AppTsx.loadPostComments, AppTsx.setPostComment, h]

theorem claim_C8_witness :
    (AppTsx.loadPostComments (AppTsx.CommentsResp.ok (none : Option (List Nat))) "AB"
      (fun _ => none)).2 "CD" = none :=
  (claim_C8 Nat (AppTsx.CommentsResp.ok none) "AB" "CD" (fun _ => none) (by decide)).2

/-- Claim C9: filtering any caption list with the empty query returns the
list unchanged. -/
theorem claim_C9 : ∀ captions, P001.filterCaptions "" captions = captions := by
  intro captions
  have h : jsTrim "" = "" := by decide
  simp [P001.filterCaptions, h]

/-- Claim C10: pagination is 1-indexed (page p yields the slice starting
at `(p-1)*pageSize`) and `totalPages` is the ceiling of
`count / pageSize` (characterised as the least `m` with
`count ≤ m * pageSize`) for every record list and `pageSize ≥ 1`; in
particular 37 records at `pageSize = 15` yield `totalPages = 3`. -/
theorem claim_C10 :
    (∀ (search : String) (cs : List P001.PostCaption) (pageSize page : Nat),
      1 ≤ pageSize →
        ((P001.filterCaptions search cs).length ≤
            (P001.getPaginatedCaptions search pageSize page cs).totalPages * pageSize
         ∧ (∀ m, (P001.filterCaptions search cs).length ≤ m * pageSize →
              (P001.getPaginatedCaptions search pageSize page cs).totalPages ≤ m)
         ∧ (P001.getPaginatedCaptions search pageSize page cs).captions =
              ((P001.filterCaptions search cs).drop ((page - 1) * pageSize)).take pageSize))
    ∧ (P001.getPaginatedCaptions "" 15 1 (List.replicate 37 sampleCaption)).totalPages = 3 := by
  constructor
  · intro search cs pageSize page hps
    refine ⟨?_, ?_, rfl⟩
    · exact (ceilDiv_le_iff (P001.filterCaptions search cs).length pageSize
        (ceilDiv (P001.filterCaptions search cs).length pageSize) hps).mp (Nat.le_refl _)
    · intro m hm
      exact (ceilDiv_le_iff (P001.filterCaptions search cs).length pageSize m hps).mpr hm
  · decide

theorem claim_C10_witness :
    (P001.filterCaptions "w" (List.replicate 37 sampleCaption)).length ≤
      (P001.getPaginatedCaptions "w" 15 2 (List.replicate 37 sampleCaption)).totalPages * 15 :=
  (claim_C10.1 "w" (List.replicate 37 sampleCaption) 15 2 (by decide)).1
